import Mathlib

/-!
Verification of the newsie session-authentication and profile-synchronization
workflows: a shallow embedding of the two flows (`Auth.tsx`, the SignInFlow,
and the `Account` component, the ProfileSyncFlow) together with proofs of the
behavioural properties stated in the specification.

Collaborator calls (`signInWithOtp`, the `profiles` table read, `upsert`) are
asynchronous; each handler is embedded as a pure function from the state at
the suspension point and the resolved collaborator result to the final state,
plus observable outputs (number of collaborator calls made, records sent,
validation feedback, toasts).
-/

namespace Newsie

/-- A value thrown inside a try block, as the catch clauses classify it:
either it is an `Error` instance (which always carries a `message` string) or
it is some other thrown value. -/
inductive Thrown where
  | errorInstance (message : String)
  | nonError
deriving Repr, DecidableEq

/-- The normalization `error instanceof Error ? error.message : 'An error occurred'`
used by every catch clause in both components. -/
def errMessage : Thrown → String
  | .errorInstance m => m
  | .nonError => "An error occurred"

/-- The supabase user carried by a session (`session.user`): only `id` and
`email` are consumed by the components. -/
structure User where
  id : String
  email : String
deriving Repr, DecidableEq

/-- The session object handed to `Account` (`interface Session { user: User }`). -/
structure Session where
  user : User
deriving Repr, DecidableEq

/-- Modelled from the spec: the `z.string().email()` validator of the sign-in
form schema is zod library code, not part of this repository. Per the spec an
address is well-formed when it is local-part "@" domain — exactly one "@",
both parts nonempty, the domain containing a dot, and no embedded whitespace. -/
def validEmail (s : String) : Bool :=
  let cs := s.toList
  let lp := cs.takeWhile (fun c => c != '@')
  let dom := (cs.dropWhile (fun c => c != '@')).drop 1
  !(cs.any Char.isWhitespace) && cs.count '@' == 1 &&
    !lp.isEmpty && !dom.isEmpty && dom.contains '.'

/-- Splits a character list at the first occurrence of "://" into the part
before and the part after, or `none` when "://" does not occur. -/
def splitSchemeSep : List Char → Option (List Char × List Char)
  | ':' :: '/' :: '/' :: rest => some ([], rest)
  | c :: rest =>
      match splitSchemeSep rest with
      | some (pre, post) => some (c :: pre, post)
      | none => none
  | [] => none

/-- Modelled from the spec: the `z.string().url()` validator of the profile
form schema is zod library code, not part of this repository. Per the spec the
value must be a syntactically valid absolute URL: a nonempty all-letter scheme,
then "://", then a nonempty remainder, with no embedded whitespace. -/
def validUrl (s : String) : Bool :=
  !(s.toList.any Char.isWhitespace) &&
    match splitSchemeSep s.toList with
    | some (scheme, rest) =>
        !scheme.isEmpty && scheme.all Char.isAlpha && !rest.isEmpty
    | none => false

/-! ## SignInFlow (`Auth.tsx`) -/

/-- The react state of the `Auth` component: the `loading` and `showSuccess`
useState cells and the single `email` form field (default value `""`). -/
structure AuthState where
  loading : Bool
  showSuccess : Bool
  emailField : String
deriving Repr, DecidableEq

/-- Initial `Auth` state: `useState(false)` for loading, `useState(false)` for
showSuccess, form default `email: ""`. -/
def authInit : AuthState := ⟨false, false, ""⟩

/-- Everything observable from one submit attempt of the sign-in form: the
final component state, how many `signInWithOtp` (requestMagicLink) calls were
made, whether field-level validation feedback was rendered, and the
description of the destructive error toast when one was raised. -/
structure AuthOutcome where
  state : AuthState
  otpCalls : Nat
  fieldError : Bool
  errorToast : Option String
deriving Repr, DecidableEq

/-- The body of `Auth.onSubmit` after the awaited `signInWithOtp` call has
resolved; `res` is the `error` field of its result (`none` on success).
On success: `setShowSuccess(true)` and `form.reset()` (email back to `""`);
on failure: showSuccess stays at the `false` set on entry, the input is left
as typed, and the error toast shows the normalized message; either way the
finally block sets loading back to false. One call was made. -/
def authOnSubmit (s : AuthState) (res : Option Thrown) : AuthOutcome :=
  match res with
  | none =>
      ⟨{ loading := false, showSuccess := true, emailField := "" }, 1, false, none⟩
  | some e =>
      ⟨{ loading := false, showSuccess := false, emailField := s.emailField },
        1, false, some (errMessage e)⟩

/-- One submit attempt of the sign-in form. The submit button is rendered
with `disabled={loading}`, so while a request is pending the submit event
never fires; otherwise `form.handleSubmit` runs the zod resolver and calls
`onSubmit` only when the email field validates, rendering a field message
instead when it does not. -/
def authSubmit (s : AuthState) (res : Option Thrown) : AuthOutcome :=
  if s.loading then ⟨s, 0, false, none⟩
  else if validEmail s.emailField then authOnSubmit s res
  else ⟨s, 0, true, none⟩

/-! ## ProfileSyncFlow (`Account` component) -/

/-- The three editable profile form fields (schema `formSchema` of the
`Account` component). -/
structure ProfileFields where
  username : String
  website : String
  avatar_url : String
deriving Repr, DecidableEq

/-- The form default values: empty username, website and avatar URL. -/
def defaultFields : ProfileFields := ⟨"", "", ""⟩

/-- The react state of the `Account` component: the `loading` and `error`
useState cells and the profile form fields. -/
structure AccountState where
  loading : Bool
  error : Option String
  fields : ProfileFields
deriving Repr, DecidableEq

/-- Initial `Account` state: `useState(true)` for loading, `useState(null)`
for error, form defaults for the fields. -/
def accountInit : AccountState := ⟨true, none, defaultFields⟩

/-- A row of the `profiles` table as selected by `getProfile`
(`select username, website, avatar_url`); each column may be null. -/
structure ProfileRow where
  username : Option String
  website : Option String
  avatar_url : Option String
deriving Repr, DecidableEq

/-- The `{ data, error }` shape resolved from the `profiles` select. Per the
collaborator interface of the spec (`readProfile -> Result (Option ProfileRecord) StoreError`),
a user with no stored record resolves to `data = none, error = none`. -/
structure ProfileQueryResult where
  data : Option ProfileRow
  error : Option Thrown
deriving Repr, DecidableEq

/-- JavaScript `x || ""` on a nullable string column: null (and the empty
string itself) becomes `""`. -/
def orEmpty : Option String → String
  | some s => s
  | none => ""

/-- The `getProfile` effect of the `Account` component after the awaited
`profiles` select (keyed by `session.user.id`) has resolved to `res`.
It sets loading true and error null on entry; a non-null `error` in the
result is thrown and caught (error message stored, fields untouched); with
a row, the form is reset from the row with null columns defaulted to `""`;
with no row and no error nothing further happens, so the fields keep their
prior (default) values; the finally block ends loading. -/
def getProfile (_session : Session) (s : AccountState) (res : ProfileQueryResult) :
    AccountState :=
  match res.error with
  | some e => { loading := false, error := some (errMessage e), fields := s.fields }
  | none =>
      match res.data with
      | some row =>
          { loading := false, error := none,
            fields := ⟨orEmpty row.username, orEmpty row.website, orEmpty row.avatar_url⟩ }
      | none => { loading := false, error := none, fields := s.fields }

/-- The lifecycle FlowState of the spec, read off the `Account` component
state: loading means Pending, a stored error message means Failed, otherwise
the operation has succeeded. -/
inductive FlowState where
  | Idle
  | Pending
  | Succeeded
  | Failed (message : String)
deriving Repr, DecidableEq

/-- The FlowState view of an `Account` state. -/
def accountFlowState (s : AccountState) : FlowState :=
  if s.loading then .Pending
  else
    match s.error with
    | some m => .Failed m
    | none => .Succeeded

/-- What the card body of the `Account` component renders:
`loading ? <Skeleton/> : <Form/>` — the skeleton while loading, and the
editable form otherwise. The error alert is rendered above the body whenever
`error` is non-null, independently of this choice. -/
inductive AccountBody where
  | skeleton
  | form
deriving Repr, DecidableEq

/-- The body rendered for an `Account` state. -/
def renderBody (s : AccountState) : AccountBody :=
  if s.loading then .skeleton else .form

/-- The profile form schema: `username` at least 2 characters; `website` and
`avatar_url` each either a valid URL or the literal empty string. -/
def profileValid (f : ProfileFields) : Bool :=
  (2 ≤ f.username.length) &&
    (f.website == "" || validUrl f.website) &&
    (f.avatar_url == "" || validUrl f.avatar_url)

/-- The record sent to `supabase.from('profiles').upsert`:
`{ id: session.user.id, ...values, updated_at }`. -/
structure Updates where
  id : String
  username : String
  website : String
  avatar_url : String
  updated_at : String
deriving Repr, DecidableEq

/-- Construction of the upsert record from the session, the submitted form
values and the timestamp `new Date().toISOString()`. -/
def mkUpdates (session : Session) (v : ProfileFields) (now : String) : Updates :=
  ⟨session.user.id, v.username, v.website, v.avatar_url, now⟩

/-- Everything observable from one submit attempt of the profile form. -/
structure AccountSubmitOutcome where
  state : AccountState
  upsertCalls : Nat
  upserted : Option Updates
  fieldErrors : Bool
  toastSuccess : Bool
deriving Repr, DecidableEq

/-- The body of `Account.onSubmit` after the awaited upsert call has resolved;
`res` is the `error` field of its result. The upsert record is built from the
submitted values; on success a success toast fires; on failure the normalized
message is stored in `error`; the form fields are never touched by this
handler; the finally block ends loading. -/
def accountOnSubmit (session : Session) (s : AccountState) (now : String)
    (res : Option Thrown) : AccountSubmitOutcome :=
  match res with
  | none =>
      ⟨{ loading := false, error := none, fields := s.fields },
        1, some (mkUpdates session s.fields now), false, true⟩
  | some e =>
      ⟨{ loading := false, error := some (errMessage e), fields := s.fields },
        1, some (mkUpdates session s.fields now), false, false⟩

/-- One submit attempt of the profile form. The update button is rendered with
`disabled={loading}`, so no submit event fires while loading; otherwise
`form.handleSubmit` runs the zod resolver and calls `onSubmit` with the
current field values only when they validate, rendering per-field messages
instead when they do not. -/
def accountHandleSubmit (session : Session) (s : AccountState) (now : String)
    (res : Option Thrown) : AccountSubmitOutcome :=
  if s.loading then ⟨s, 0, none, false, false⟩
  else if profileValid s.fields then accountOnSubmit session s now res
  else ⟨s, 0, none, true, false⟩

/-! ## Theorems -/

/-- C1: for every session whose user has no stored profile record, the load
resolves with the editable fields at their defaults (empty username, website,
avatar URL) and the load state Succeeded, not Failed. -/
theorem C1_load_no_record_succeeds (session : Session) :
    getProfile session accountInit ⟨none, none⟩ =
      { loading := false, error := none, fields := defaultFields } ∧
    accountFlowState (getProfile session accountInit ⟨none, none⟩) = .Succeeded := by
  exact ⟨rfl, rfl⟩

/-- C2 counterexample: a load that ends in Failed nevertheless renders the
editable form (the skeleton is shown only while loading), contradicting the
claim that the form is not rendered until the load state is Succeeded. -/
theorem C2_counterexample :
    accountFlowState (getProfile ⟨⟨"user-1", "u@example.com"⟩⟩ accountInit
      ⟨none, some (.errorInstance "boom")⟩) = .Failed "boom" ∧
    renderBody (getProfile ⟨⟨"user-1", "u@example.com"⟩⟩ accountInit
      ⟨none, some (.errorInstance "boom")⟩) = .form := by
  exact ⟨rfl, rfl⟩

/-- C2 amended: when a load ends in Failed the failure message is surfaced
and the editable fields keep their pre-load values, but the editable form IS
rendered alongside the failure alert — form rendering is gated on loading
being finished, not on the load state being Succeeded. -/
theorem C2_failed_load_renders_form (session : Session) (s : AccountState)
    (res : ProfileQueryResult) (e : Thrown) (h : res.error = some e) :
    accountFlowState (getProfile session s res) = .Failed (errMessage e) ∧
    (getProfile session s res).fields = s.fields ∧
    renderBody (getProfile session s res) = .form := by
  simp [getProfile, h, accountFlowState, renderBody]

/-- C2 amended, witness at a concrete failing load. -/
theorem C2_failed_load_renders_form_witness :
    accountFlowState (getProfile ⟨⟨"user-1", "u@example.com"⟩⟩ accountInit
      ⟨none, some .nonError⟩) = .Failed (errMessage .nonError) ∧
    (getProfile ⟨⟨"user-1", "u@example.com"⟩⟩ accountInit
      ⟨none, some .nonError⟩).fields = accountInit.fields ∧
    renderBody (getProfile ⟨⟨"user-1", "u@example.com"⟩⟩ accountInit
      ⟨none, some .nonError⟩) = .form :=
  C2_failed_load_renders_form ⟨⟨"user-1", "u@example.com"⟩⟩ accountInit
    ⟨none, some .nonError⟩ .nonError rfl

/-- C3: a sign-in submit attempted while a request is pending is a no-op:
the disabled submit button blocks the event, so no collaborator call is made
and no state changes. -/
theorem C3_submit_while_pending_noop (s : AuthState) (res : Option Thrown)
    (h : s.loading = true) :
    authSubmit s res = ⟨s, 0, false, none⟩ := by
  simp [authSubmit, h]

/-- C3, witness at a concrete pending state. -/
theorem C3_submit_while_pending_noop_witness :
    authSubmit ⟨true, false, "a@b.co"⟩ none =
      ⟨⟨true, false, "a@b.co"⟩, 0, false, none⟩ :=
  C3_submit_while_pending_noop ⟨true, false, "a@b.co"⟩ none rfl

/-- C4: for a syntactically invalid email the sign-in submit makes no
collaborator call, leaves the state unchanged (so the flow stays Idle), and
renders field-level validation feedback instead. -/
theorem C4_invalid_email_no_call (s : AuthState) (res : Option Thrown)
    (hidle : s.loading = false) (hbad : validEmail s.emailField = false) :
    authSubmit s res = ⟨s, 0, true, none⟩ := by
  simp [authSubmit, hidle, hbad]

/-- C4, witness at a concrete invalid email. -/
theorem C4_invalid_email_no_call_witness :
    authSubmit ⟨false, false, "not-an-email"⟩ none =
      ⟨⟨false, false, "not-an-email"⟩, 0, true, none⟩ :=
  C4_invalid_email_no_call ⟨false, false, "not-an-email"⟩ none rfl (by decide)

/-- C5: a profile submit whose username is shorter than 2 characters, or
whose website or avatar URL is neither empty nor a valid URL, is rejected
locally with per-field feedback and no upsert call; a submit with username of
length at least 2 and empty website and avatar URL makes the upsert call. -/
theorem C5_profile_validation_gate (session : Session) (s : AccountState)
    (now : String) (res : Option Thrown) (hidle : s.loading = false) :
    ((s.fields.username.length < 2 ∨
        (s.fields.website ≠ "" ∧ validUrl s.fields.website = false) ∨
        (s.fields.avatar_url ≠ "" ∧ validUrl s.fields.avatar_url = false)) →
      accountHandleSubmit session s now res = ⟨s, 0, none, true, false⟩) ∧
    ((2 ≤ s.fields.username.length ∧ s.fields.website = "" ∧
        s.fields.avatar_url = "") →
      (accountHandleSubmit session s now res).upsertCalls = 1) := by
  constructor
  · intro hbad
    have hpv : profileValid s.fields = false := by
      simp only [profileValid, Bool.and_eq_false_iff, Bool.or_eq_false_iff,
        decide_eq_false_iff_not, not_le, beq_eq_false_iff_ne]
      tauto
    simp [accountHandleSubmit, hidle, hpv]
  · rintro ⟨h1, h2, h3⟩
    have hpv : profileValid s.fields = true := by
      simp [profileValid, h1, h2, h3]
    cases res <;> simp [accountHandleSubmit, accountOnSubmit, hidle, hpv]

/-- C5, witness: empty username rejected with no call; username "ab" with
empty website and avatar accepted with exactly one upsert call. -/
theorem C5_profile_validation_gate_witness :
    accountHandleSubmit ⟨⟨"user-1", "u@example.com"⟩⟩
        ⟨false, none, ⟨"", "", ""⟩⟩ "2024-01-01T00:00:00.000Z" none =
      ⟨⟨false, none, ⟨"", "", ""⟩⟩, 0, none, true, false⟩ ∧
    (accountHandleSubmit ⟨⟨"user-1", "u@example.com"⟩⟩
        ⟨false, none, ⟨"ab", "", ""⟩⟩ "2024-01-01T00:00:00.000Z" none).upsertCalls = 1 :=
  ⟨(C5_profile_validation_gate ⟨⟨"user-1", "u@example.com"⟩⟩
      ⟨false, none, ⟨"", "", ""⟩⟩ "2024-01-01T00:00:00.000Z" none rfl).1
      (Or.inl (by decide)),
   (C5_profile_validation_gate ⟨⟨"user-1", "u@example.com"⟩⟩
      ⟨false, none, ⟨"ab", "", ""⟩⟩ "2024-01-01T00:00:00.000Z" none rfl).2
      ⟨by decide, rfl, rfl⟩⟩

/-- C6: a sign-in submit with a valid email makes exactly one magic-link
call; the sticky success notice becomes true iff the call succeeds; on
success the input is cleared, on failure it is preserved. -/
theorem C6_valid_email_one_call (s : AuthState) (res : Option Thrown)
    (hidle : s.loading = false) (hval : validEmail s.emailField = true) :
    (authSubmit s res).otpCalls = 1 ∧
    ((authSubmit s res).state.showSuccess = true ↔ res = none) ∧
    (res = none → (authSubmit s res).state.emailField = "") ∧
    (∀ e, res = some e → (authSubmit s res).state.emailField = s.emailField) := by
  cases res <;> simp [authSubmit, authOnSubmit, hidle, hval]

/-- C6, witness at a concrete valid email with a successful call. -/
theorem C6_valid_email_one_call_witness :
    (authSubmit ⟨false, false, "a@b.co"⟩ none).otpCalls = 1 ∧
    ((authSubmit ⟨false, false, "a@b.co"⟩ none).state.showSuccess = true ↔
      (none : Option Thrown) = none) ∧
    ((none : Option Thrown) = none →
      (authSubmit ⟨false, false, "a@b.co"⟩ none).state.emailField = "") ∧
    (∀ e, (none : Option Thrown) = some e →
      (authSubmit ⟨false, false, "a@b.co"⟩ none).state.emailField = "a@b.co") :=
  C6_valid_email_one_call ⟨false, false, "a@b.co"⟩ none rfl (by decide)

/-- C7: a profile submit whose upsert call fails transitions to Failed with
the normalized message and leaves the in-memory editable fields exactly as
they were before the submission. -/
theorem C7_failed_submit_preserves_fields (session : Session) (s : AccountState)
    (now : String) (e : Thrown) (hidle : s.loading = false)
    (hval : profileValid s.fields = true) :
    (accountHandleSubmit session s now (some e)).state.error =
      some (errMessage e) ∧
    accountFlowState (accountHandleSubmit session s now (some e)).state =
      .Failed (errMessage e) ∧
    (accountHandleSubmit session s now (some e)).state.fields = s.fields := by
  simp [accountHandleSubmit, accountOnSubmit, hidle, hval, accountFlowState]

/-- C7, witness at a concrete failing upsert. -/
theorem C7_failed_submit_preserves_fields_witness :
    (accountHandleSubmit ⟨⟨"user-1", "u@example.com"⟩⟩
        ⟨false, none, ⟨"ab", "", ""⟩⟩ "2024-01-01T00:00:00.000Z"
        (some (.errorInstance "db down"))).state.error =
      some (errMessage (.errorInstance "db down")) ∧
    accountFlowState (accountHandleSubmit ⟨⟨"user-1", "u@example.com"⟩⟩
        ⟨false, none, ⟨"ab", "", ""⟩⟩ "2024-01-01T00:00:00.000Z"
        (some (.errorInstance "db down"))).state =
      .Failed (errMessage (.errorInstance "db down")) ∧
    (accountHandleSubmit ⟨⟨"user-1", "u@example.com"⟩⟩
        ⟨false, none, ⟨"ab", "", ""⟩⟩ "2024-01-01T00:00:00.000Z"
        (some (.errorInstance "db down"))).state.fields = ⟨"ab", "", ""⟩ :=
  C7_failed_submit_preserves_fields ⟨⟨"user-1", "u@example.com"⟩⟩
    ⟨false, none, ⟨"ab", "", ""⟩⟩ "2024-01-01T00:00:00.000Z"
    (.errorInstance "db down") rfl (by decide)

/-- C8: every Failed transition carries the normalized human-readable
message — the thrown Error's own message when it carries one, the generic
"An error occurred" otherwise — in the sign-in failure toast, the profile
load error and the profile submit error alike. -/
theorem C8_failed_message_normalization (m : String) (s : AuthState)
    (session : Session) (t : AccountState) (now : String) (e : Thrown)
    (row : Option ProfileRow) (hs : s.loading = false)
    (hv : validEmail s.emailField = true) (ht : t.loading = false)
    (hp : profileValid t.fields = true) :
    errMessage (.errorInstance m) = m ∧
    errMessage .nonError = "An error occurred" ∧
    (authSubmit s (some e)).errorToast = some (errMessage e) ∧
    (getProfile session t ⟨row, some e⟩).error = some (errMessage e) ∧
    (accountHandleSubmit session t now (some e)).state.error =
      some (errMessage e) := by
  refine ⟨rfl, rfl, ?_, rfl, ?_⟩
  · simp [authSubmit, authOnSubmit, hs, hv]
  · simp [accountHandleSubmit, accountOnSubmit, ht, hp]

/-- C8, witness at concrete failing operations in both flows. -/
theorem C8_failed_message_normalization_witness :
    errMessage (.errorInstance "boom") = "boom" ∧
    errMessage .nonError = "An error occurred" ∧
    (authSubmit ⟨false, false, "a@b.co"⟩ (some .nonError)).errorToast =
      some (errMessage .nonError) ∧
    (getProfile ⟨⟨"user-1", "u@example.com"⟩⟩ ⟨false, none, ⟨"ab", "", ""⟩⟩
        ⟨none, some .nonError⟩).error = some (errMessage .nonError) ∧
    (accountHandleSubmit ⟨⟨"user-1", "u@example.com"⟩⟩
        ⟨false, none, ⟨"ab", "", ""⟩⟩ "2024-01-01T00:00:00.000Z"
        (some .nonError)).state.error = some (errMessage .nonError) :=
  C8_failed_message_normalization "boom" ⟨false, false, "a@b.co"⟩
    ⟨⟨"user-1", "u@example.com"⟩⟩ ⟨false, none, ⟨"ab", "", ""⟩⟩
    "2024-01-01T00:00:00.000Z" .nonError none rfl (by decide) rfl (by decide)

/-- C9: once a collaborator call has resolved — with success or failure — the
finally block of each handler resets loading to false: no resolved path in
either flow leaves the flow stuck in Pending. -/
theorem C9_resolved_never_pending (s : AuthState) (res : Option Thrown)
    (session : Session) (t : AccountState) (q : ProfileQueryResult)
    (now : String) (res2 : Option Thrown) :
    (authOnSubmit s res).state.loading = false ∧
    (getProfile session t q).loading = false ∧
    (accountOnSubmit session t now res2).state.loading = false := by
  refine ⟨?_, ?_, ?_⟩
  · cases res <;> rfl
  · rcases q with ⟨d, err⟩
    cases err
    · cases d <;> rfl
    · rfl
  · cases res2 <;> rfl

/-- C10: an accepted profile submission sends exactly the record
id (the session's user id), username, website, avatar_url and updated_at to
the upsert; the session's email never influences the record. -/
theorem C10_upsert_record_shape (session : Session) (s : AccountState)
    (now : String) (res : Option Thrown) (hidle : s.loading = false)
    (hval : profileValid s.fields = true) :
    (accountHandleSubmit session s now res).upserted =
      some ⟨session.user.id, s.fields.username, s.fields.website,
        s.fields.avatar_url, now⟩ ∧
    (∀ otherEmail : String,
      (accountHandleSubmit ⟨⟨session.user.id, otherEmail⟩⟩ s now res).upserted =
        (accountHandleSubmit session s now res).upserted) := by
  cases res <;>
    simp [accountHandleSubmit, accountOnSubmit, mkUpdates, hidle, hval]

/-- C10, witness at a concrete accepted submission. -/
theorem C10_upsert_record_shape_witness :
    (accountHandleSubmit ⟨⟨"user-1", "u@example.com"⟩⟩
        ⟨false, none, ⟨"ab", "", ""⟩⟩ "2024-01-01T00:00:00.000Z" none).upserted =
      some ⟨"user-1", "ab", "", "", "2024-01-01T00:00:00.000Z"⟩ ∧
    (∀ otherEmail : String,
      (accountHandleSubmit ⟨⟨"user-1", otherEmail⟩⟩
          ⟨false, none, ⟨"ab", "", ""⟩⟩ "2024-01-01T00:00:00.000Z" none).upserted =
        (accountHandleSubmit ⟨⟨"user-1", "u@example.com"⟩⟩
          ⟨false, none, ⟨"ab", "", ""⟩⟩ "2024-01-01T00:00:00.000Z" none).upserted) :=
  C10_upsert_record_shape ⟨⟨"user-1", "u@example.com"⟩⟩
    ⟨false, none, ⟨"ab", "", ""⟩⟩ "2024-01-01T00:00:00.000Z" none rfl (by decide)

end Newsie
